import Mathlib

/-!
Verification of the numeric core of the investing dashboard.

The repository's numeric core consists of two parts:

* a statistics engine (`src/helper/data.py`) deriving overlay columns from an
  ordered price series (moving averages, daily/cumulative returns, running
  all-time high, drawdown from high);
* a projection engine (`src/helper/calc/portfolio_growth_calc.py`) with three
  simulators: cumulative growth with periodic contributions, a retirement
  contribution solver, and a debt payoff schedule.

Prices and money amounts are modelled as exact rationals (`ℚ`); a price series
is a `List ℚ` in time order; the "missing value" marker (pandas `NaN` in
warm-up rows) is modelled as `Option ℚ` with `none` for missing.  Python
exceptions (`ValueError`, `KeyError`, `ZeroDivisionError`) are modelled as
`Except String`.  The debt-payoff `while` loop is modelled with an explicit
fuel parameter; termination is then a theorem (`∃ fuel` the loop finishes).
-/

namespace InvestingDashboard

/-! ### Statistics engine (`src/helper/data.py`) -/

/-- `add_moving_averages` column `MA_w`: pandas `rolling(window=w).mean()` on
the price column.  Row `n` holds the mean of the trailing `w` prices ending at
row `n` once `w` observations are available, and is missing (`none`) before
that. -/
def rollingMean (w : ℕ) (l : List ℚ) : List (Option ℚ) :=
  (List.range l.length).map (fun n =>
    if w ≤ n + 1 then some (((l.take (n + 1)).drop (n + 1 - w)).sum / (w : ℚ))
    else none)

/-- `add_daily_returns` column `Daily_Return`: pandas `pct_change()` on the
price column.  Row `0` is missing; row `n ≥ 1` is `p[n] / p[n-1] - 1`. -/
def pct_change (l : List ℚ) : List (Option ℚ) :=
  (List.range l.length).map (fun n =>
    match n with
    | 0 => none
    | k + 1 => some (l.getD (k + 1) 0 / l.getD k 0 - 1))

/-- pandas `cumprod` with its default `skipna=True` semantics: a missing entry
stays missing and does not affect the running product of later entries. -/
def cumprodSkipna (acc : ℚ) : List (Option ℚ) → List (Option ℚ)
  | [] => []
  | none :: xs => none :: cumprodSkipna acc xs
  | some x :: xs => some (acc * x) :: cumprodSkipna (acc * x) xs

/-- `add_cumulative_returns` column `Cumulative_Return`:
`(1 + pct_change()).cumprod() - 1` on the price column. -/
def add_cumulative_returns (l : List ℚ) : List (Option ℚ) :=
  (cumprodSkipna 1 ((pct_change l).map (Option.map (fun r => 1 + r)))).map
    (Option.map (fun x => x - 1))

/-- Running maximum with accumulator `m`: the tail of pandas `cummax` after
the first entry. -/
def cummaxAux (m : ℚ) : List ℚ → List ℚ
  | [] => []
  | p :: ps => max m p :: cummaxAux (max m p) ps

/-- `add_cummulative_all_time_high` column `Cumulative_All_Time_High`: pandas
`cummax()` on the price column, the running maximum up to and including each
row. -/
def cummax : List ℚ → List ℚ
  | [] => []
  | p :: ps => p :: cummaxAux p ps

/-- `add_drawdown_from_high` column `Drawdown_From_High`:
`price / price.cummax() - 1` at every row. -/
def drawdown_from_high (l : List ℚ) : List ℚ :=
  List.zipWith (fun p m => p / m - 1) l (cummax l)

/-! ### Projection engine (`src/helper/calc/portfolio_growth_calc.py`) -/

/-- The `frequency_map` dictionary shared by the growth and retirement
calculators; `none` models a key that is absent from the dictionary. -/
def frequency_map (f : String) : Option ℕ :=
  if f = "daily" then some 365
  else if f = "weekly" then some 52
  else if f = "monthly" then some 12
  else if f = "quarterly" then some 4
  else none

/-- The per-period contribution computed inside the loop of
`calculate_cumulative_growth` at loop index `p`: the `current_year` is
`p // periods_per_year` (integer division), and when inflation adjustment is
on and at least one year has completed, the first-year contribution is scaled
by `(1 + annual_inflation) ^ current_year`. -/
def adjustedContribution (c i : ℚ) (flag : Bool) (ppy : ℕ) (p : ℕ) : ℚ :=
  if flag ∧ 0 < p / ppy then c * (1 + i) ^ (p / ppy) else c

/-- The state `(current_balance, total_contributions)` of the
`calculate_cumulative_growth` loop at the start of period `n`.  It starts at
`(starting_balance, starting_balance)` and advances by
`balance * (1 + period_return) + contribution` / `total + contribution`. -/
def growthState (sb c i : ℚ) (flag : Bool) (ppy : ℕ) (r : ℚ) : ℕ → ℚ × ℚ
  | 0 => (sb, sb)
  | p + 1 =>
    let s := growthState sb c i flag ppy r p
    let a := adjustedContribution c i flag ppy p
    (s.1 * (1 + r) + a, s.2 + a)

/-- The timeline and summary returned by `calculate_cumulative_growth`
(the inflation-deflated column and the effective annual return are factored
out into `real_value` and `effective_return` below, since they need real
powers with fractional exponents). -/
structure GrowthResult where
  years : List ℚ
  balance : List ℚ
  contributions : List ℚ
  interest : List ℚ
  final_balance : ℚ
  total_contributed : ℚ
  total_interest : ℚ
  deriving DecidableEq

/-- `calculate_cumulative_growth`: validates the contribution frequency
(raising `ValueError` otherwise), then records one snapshot per period
`0 .. years * periods_per_year`, each holding elapsed years, balance,
cumulative contributions and accrued interest (balance minus contributions),
advancing the balance between snapshots. -/
def calculate_cumulative_growth (starting_balance periodic_contribution : ℚ)
    (contribution_frequency : String) (years : ℕ)
    (annual_return annual_inflation : ℚ) (inflation_adjust_contributions : Bool) :
    Except String GrowthResult :=
  match frequency_map contribution_frequency with
  | none => Except.error "Invalid frequency"
  | some periods_per_year =>
    let total_periods := years * periods_per_year
    let period_return := annual_return / (periods_per_year : ℚ)
    let states := (List.range (total_periods + 1)).map
      (growthState starting_balance periodic_contribution annual_inflation
        inflation_adjust_contributions periods_per_year period_return)
    let balances := states.map Prod.fst
    let contributions_total := states.map Prod.snd
    Except.ok
      { years := (List.range (total_periods + 1)).map
          (fun p => (p : ℚ) / (periods_per_year : ℚ))
        balance := balances
        contributions := contributions_total
        interest := states.map (fun s => s.1 - s.2)
        final_balance := balances.getLastD 0
        total_contributed := contributions_total.getLastD 0
        total_interest := balances.getLastD 0 - contributions_total.getLastD 0 }

/-- The per-snapshot inflation-deflated value recorded by
`calculate_cumulative_growth`: `balance / (1 + annual_inflation) ** years_elapsed`
when inflation is positive, else the nominal balance.  The exponent is the
fractional elapsed-years value, hence a real power. -/
noncomputable def real_value (balance annual_inflation years_elapsed : ℚ) : ℝ :=
  if 0 < annual_inflation then
    (balance : ℝ) / Real.rpow (1 + (annual_inflation : ℝ)) (years_elapsed : ℝ)
  else (balance : ℝ)

/-- The `effective_annual_return` computation of `calculate_cumulative_growth`:
`(final_balance / starting_balance) ** (1 / years) - 1` when `years > 0`
(a float division that raises `ZeroDivisionError` when the starting balance is
zero), and the plain number `0` when `years = 0` (the `if years > 0 else 0`
branch of the source). -/
noncomputable def effective_return (final_balance starting_balance : ℚ)
    (years : ℕ) : Except String ℝ :=
  if 0 < years then
    if starting_balance = 0 then Except.error "ZeroDivisionError"
    else Except.ok
      (Real.rpow ((final_balance : ℝ) / (starting_balance : ℝ)) (1 / (years : ℝ)) - 1)
  else Except.ok 0

/-- The result of `calculate_retirement_goal`. -/
structure RetirementResult where
  required_contribution : ℚ
  years_to_retirement : ℤ
  future_value_current_savings : ℚ
  additional_needed : ℚ
  total_contributions_needed : ℚ
  inflation_adjusted_target : ℚ
  deriving DecidableEq

/-- `calculate_retirement_goal`: rejects `retirement_age ≤ current_age`
(`ValueError`), escalates the target by inflation over the horizon, compounds
current savings at the annual rate, and solves the ordinary-annuity payment
for the remaining gap (zero when the gap is already covered; straight division
when the per-period rate is zero).  An unsupported frequency string raises
`KeyError` at the dictionary lookup. -/
def calculate_retirement_goal (target_amount : ℚ) (current_age retirement_age : ℤ)
    (current_savings annual_return : ℚ) (contribution_frequency : String)
    (annual_inflation : ℚ) : Except String RetirementResult :=
  let years_to_retirement := retirement_age - current_age
  if years_to_retirement ≤ 0 then
    Except.error "Retirement age must be greater than current age"
  else
    let inflation_adjusted_target :=
      target_amount * (1 + annual_inflation) ^ years_to_retirement.toNat
    match frequency_map contribution_frequency with
    | none => Except.error "KeyError"
    | some periods_per_year =>
      let total_periods := years_to_retirement.toNat * periods_per_year
      let period_return := annual_return / (periods_per_year : ℚ)
      let future_value_current :=
        current_savings * (1 + annual_return) ^ years_to_retirement.toNat
      let additional_needed := inflation_adjusted_target - future_value_current
      let required_contribution :=
        if additional_needed ≤ 0 then 0
        else if period_return = 0 then additional_needed / (total_periods : ℚ)
        else additional_needed * period_return /
          ((1 + period_return) ^ total_periods - 1)
      Except.ok
        { required_contribution := required_contribution
          years_to_retirement := years_to_retirement
          future_value_current_savings := future_value_current
          additional_needed := additional_needed
          total_contributions_needed := required_contribution * (total_periods : ℚ)
          inflation_adjusted_target := inflation_adjusted_target }

/-- The schedule and summary returned by `calculate_debt_payoff`. -/
structure DebtResult where
  months : List ℕ
  remaining_balance : List ℚ
  interest_payments : List ℚ
  principal_payments : List ℚ
  months_to_payoff : ℕ
  years_to_payoff : ℚ
  total_interest_paid : ℚ
  total_amount_paid : ℚ
  deriving DecidableEq

/-- The `while current_balance > 0.01` loop of `calculate_debt_payoff`, with an
explicit fuel bound: `none` means the fuel ran out while the balance was still
above the one-cent tolerance.  Each iteration computes the month's interest
`balance * monthly_rate`, the principal portion
`min (payment - interest) balance`, subtracts it from the balance, and appends
the snapshot `(month, max 0 balance, interest, principal portion)`. -/
def debtLoop (monthly_rate monthly_payment : ℚ) :
    ℕ → ℚ → ℕ → List (ℕ × ℚ × ℚ × ℚ) → Option (ℚ × ℕ × List (ℕ × ℚ × ℚ × ℚ))
  | 0, b, m, acc => if 1 / 100 < b then none else some (b, m, acc)
  | fuel + 1, b, m, acc =>
    if 1 / 100 < b then
      let i := b * monthly_rate
      let p := min (monthly_payment - i) b
      let b' := b - p
      debtLoop monthly_rate monthly_payment fuel b' (m + 1)
        (acc ++ [(m + 1, max 0 b', i, p)])
    else some (b, m, acc)

/-- `calculate_debt_payoff`: rejects a payment not exceeding the first month's
interest (`ValueError`), then runs the monthly loop until the balance is at
most one cent, returning the schedule columns and summary totals.
`Except.ok none` is the fuel-exhaustion artifact of the embedding. -/
def calculate_debt_payoff (principal annual_interest_rate monthly_payment : ℚ)
    (fuel : ℕ) : Except String (Option DebtResult) :=
  let monthly_rate := annual_interest_rate / 12
  if monthly_payment ≤ principal * monthly_rate then
    Except.error "Monthly payment too low - debt will never be paid off"
  else
    match debtLoop monthly_rate monthly_payment fuel principal 0 [] with
    | none => Except.ok none
    | some (_, _, sched) =>
      let months := sched.map (fun e => e.1)
      let interest_payments := sched.map (fun e => e.2.2.1)
      let total_interest := interest_payments.sum
      Except.ok (some
        { months := months
          remaining_balance := sched.map (fun e => e.2.1)
          interest_payments := interest_payments
          principal_payments := sched.map (fun e => e.2.2.2)
          months_to_payoff := months.length
          years_to_payoff := (months.length : ℚ) / 12
          total_interest_paid := total_interest
          total_amount_paid := principal + total_interest })

/-! ### Lemmas about the statistics engine -/

theorem length_rollingMean (w : ℕ) (l : List ℚ) :
    (rollingMean w l).length = l.length := by
  simp [rollingMean]

theorem getElem?_rollingMean (w : ℕ) (l : List ℚ) (n : ℕ) (hn : n < l.length) :
    (rollingMean w l)[n]? =
      some (if w ≤ n + 1 then
        some (((l.take (n + 1)).drop (n + 1 - w)).sum / (w : ℚ)) else none) := by
  simp [rollingMean, List.getElem?_range hn]

theorem drop_eq_map_range_getD (l : List ℚ) (a b : ℕ) (h : a + b ≤ l.length) :
    (l.drop a).take b = (List.range b).map (fun k => l.getD (a + k) 0) := by
  apply List.ext_getElem
  · simp; omega
  · intro k h1 h2
    have hk : k < b := by simpa using h2
    have hak : a + k < l.length := by omega
    simp [List.getD_eq_getElem?_getD, List.getElem?_eq_getElem hak]

/-- C5.  For every price series and window `w ≥ 1`, the `MA_w` column is
missing at rows `0 .. w-2` and equals the arithmetic mean of the trailing `w`
prices ending at the row for every row `n ≥ w - 1`. -/
theorem moving_average_warmup_and_mean (l : List ℚ) (w n : ℕ) (hw : 1 ≤ w)
    (hn : n < l.length) :
    (n + 1 < w → (rollingMean w l)[n]? = some none) ∧
    (w ≤ n + 1 → (rollingMean w l)[n]? =
      some (some (((List.range w).map (fun k => l.getD (n + 1 - w + k) 0)).sum /
        (w : ℚ)))) := by
  constructor
  · intro hlt
    rw [getElem?_rollingMean w l n hn, if_neg (by omega)]
  · intro hge
    rw [getElem?_rollingMean w l n hn, if_pos hge]
    have hslice : (l.take (n + 1)).drop (n + 1 - w) =
        (List.range w).map (fun k => l.getD (n + 1 - w + k) 0) := by
      rw [List.drop_take]
      have hb : n + 1 - (n + 1 - w) = w := by omega
      rw [hb, drop_eq_map_range_getD l (n + 1 - w) w (by omega)]
    rw [hslice]

/-- C5 witness: series `[1, 2, 3]`, window `2`, row `2` has the trailing mean
`(2 + 3) / 2`. -/
theorem moving_average_warmup_and_mean_witness :
    (rollingMean 2 [(1 : ℚ), 2, 3])[2]? =
      some (some (((List.range 2).map
        (fun k => [(1 : ℚ), 2, 3].getD (2 + 1 - 2 + k) 0)).sum / (2 : ℚ))) :=
  (moving_average_warmup_and_mean [(1 : ℚ), 2, 3] 2 2 (by decide) (by decide)).2
    (by decide)

/-- C9 counterexample: for the two-element series `[1, 2]` and window `w = 2`
(so `w ≥` the series length), the `MA_2` column is not all-missing: its last
row holds the full-series mean `3/2`. -/
theorem moving_average_full_window_counterexample :
    rollingMean 2 [(1 : ℚ), 2] = [none, some (3 / 2)] := by
  simp [rollingMean, List.range_succ]
  norm_num

/-- C9 amended: a window strictly greater than the series length yields a
column of the same length whose entries are all missing, and the computation
is total (no error is signalled). -/
theorem moving_average_long_window_all_missing (l : List ℚ) (w : ℕ)
    (h : l.length < w) :
    (rollingMean w l).length = l.length ∧ ∀ o ∈ rollingMean w l, o = none := by
  refine ⟨length_rollingMean w l, ?_⟩
  intro o ho
  rcases List.mem_map.1 ho with ⟨n, hn, rfl⟩
  have : n < l.length := List.mem_range.1 hn
  rw [if_neg (by omega)]

/-- C9 amended witness: series `[1]`, window `2`. -/
theorem moving_average_long_window_all_missing_witness :
    (rollingMean 2 [(1 : ℚ)]).length = 1 ∧ ∀ o ∈ rollingMean 2 [(1 : ℚ)], o = none :=
  moving_average_long_window_all_missing [(1 : ℚ)] 2 (by decide)

theorem length_cummaxAux (m : ℚ) (l : List ℚ) :
    (cummaxAux m l).length = l.length := by
  induction l generalizing m with
  | nil => rfl
  | cons p ps ih => simp [cummaxAux, ih]

theorem length_cummax (l : List ℚ) : (cummax l).length = l.length := by
  cases l with
  | nil => rfl
  | cons p ps => simp [cummax, length_cummaxAux]

theorem chain'_cummaxAux (l : List ℚ) :
    ∀ m : ℚ, List.Chain' (· ≤ ·) (m :: cummaxAux m l) := by
  induction l with
  | nil => intro m; simp [cummaxAux]
  | cons p ps ih =>
    intro m
    exact List.chain'_cons.2 ⟨le_max_left m p, ih (max m p)⟩

theorem cummax_pairwise (l : List ℚ) : List.Pairwise (· ≤ ·) (cummax l) := by
  cases l with
  | nil => simp [cummax]
  | cons p ps =>
    exact List.chain'_iff_pairwise.1 (chain'_cummaxAux ps p)

theorem le_cummaxAux (l : List ℚ) :
    ∀ (m : ℚ) (k : ℕ) (h : k < l.length) (h' : k < (cummaxAux m l).length),
      l.get ⟨k, h⟩ ≤ (cummaxAux m l).get ⟨k, h'⟩ := by
  induction l with
  | nil => intro m k h; exact absurd h (by simp)
  | cons p ps ih =>
    intro m k h h'
    cases k with
    | zero => exact le_max_right m p
    | succ j =>
      exact ih (max m p) j (by simpa using h) (by simpa [cummaxAux] using h')

theorem le_cummax (l : List ℚ) (k : ℕ) (h : k < l.length)
    (h' : k < (cummax l).length) : l.get ⟨k, h⟩ ≤ (cummax l).get ⟨k, h'⟩ := by
  cases l with
  | nil => exact absurd h (by simp)
  | cons p ps =>
    cases k with
    | zero => exact le_refl p
    | succ j =>
      exact le_cummaxAux ps p j (by simpa using h) (by simpa [cummax] using h')

theorem cummaxAux_pos (l : List ℚ) :
    ∀ m : ℚ, 0 < m → (∀ x ∈ l, 0 < x) → ∀ x ∈ cummaxAux m l, 0 < x := by
  induction l with
  | nil => intro m _ _ x hx; simp [cummaxAux] at hx
  | cons p ps ih =>
    intro m hm hl x hx
    rcases List.mem_cons.1 hx with rfl | hx
    · exact lt_max_of_lt_left hm
    · exact ih (max m p) (lt_max_of_lt_left hm)
        (fun y hy => hl y (List.mem_cons_of_mem p hy)) x hx

theorem cummax_pos (l : List ℚ) (hl : ∀ x ∈ l, 0 < x) :
    ∀ x ∈ cummax l, 0 < x := by
  cases l with
  | nil => intro x hx; simp [cummax] at hx
  | cons p ps =>
    intro x hx
    rcases List.mem_cons.1 hx with rfl | hx
    · exact hl x (List.mem_cons_self x ps)
    · exact cummaxAux_pos ps p (hl p (List.mem_cons_self p ps))
        (fun y hy => hl y (List.mem_cons_of_mem p hy)) x hx

theorem length_drawdown (l : List ℚ) :
    (drawdown_from_high l).length = l.length := by
  simp [drawdown_from_high, length_cummax]

/-- C4.  For a non-empty series of positive prices: the running all-time-high
column is non-decreasing, the drawdown-from-high column is everywhere `≤ 0`,
and it is `0` exactly at the rows where the price equals the running maximum
up to and including that row. -/
theorem drawdown_invariants (l : List ℚ) (hne : l ≠ [])
    (hpos : ∀ x ∈ l, 0 < x) :
    (∀ (i j : ℕ) mi mj, i ≤ j → (cummax l)[i]? = some mi → (cummax l)[j]? = some mj →
      mi ≤ mj) ∧
    (∀ (i : ℕ) d, (drawdown_from_high l)[i]? = some d → d ≤ 0) ∧
    (∀ (i : ℕ) d p m, (drawdown_from_high l)[i]? = some d → l[i]? = some p →
      (cummax l)[i]? = some m → (d = 0 ↔ p = m)) := by
  have hlen := length_cummax l
  refine ⟨?_, ?_, ?_⟩
  · intro i j mi mj hij hi hj
    rcases List.getElem?_eq_some_iff.1 hi with ⟨hi', rfl⟩
    rcases List.getElem?_eq_some_iff.1 hj with ⟨hj', rfl⟩
    rcases eq_or_lt_of_le hij with rfl | hlt
    · rfl
    · exact List.pairwise_iff_getElem.1 (cummax_pairwise l) i j hi' hj' hlt
  · intro i d hd
    rcases List.getElem?_eq_some_iff.1 hd with ⟨hi', rfl⟩
    have hi2 : i < l.length := by rw [← length_drawdown l]; exact hi'
    have hi3 : i < (cummax l).length := by rw [hlen]; exact hi2
    have hval : (drawdown_from_high l)[i] =
        l.get ⟨i, hi2⟩ / (cummax l).get ⟨i, hi3⟩ - 1 := by
      simp [drawdown_from_high]
    rw [hval]
    have hm : 0 < (cummax l).get ⟨i, hi3⟩ :=
      cummax_pos l hpos _ (List.get_mem (cummax l) i hi3)
    have hle : l.get ⟨i, hi2⟩ ≤ (cummax l).get ⟨i, hi3⟩ := le_cummax l i hi2 hi3
    have : l.get ⟨i, hi2⟩ / (cummax l).get ⟨i, hi3⟩ ≤ 1 := (div_le_one hm).2 hle
    linarith
  · intro i d p m hd hp hm
    rcases List.getElem?_eq_some_iff.1 hd with ⟨hi', rfl⟩
    rcases List.getElem?_eq_some_iff.1 hp with ⟨hip, rfl⟩
    rcases List.getElem?_eq_some_iff.1 hm with ⟨him, rfl⟩
    have hi2 : i < l.length := hip
    have hi3 : i < (cummax l).length := him
    have hval : (drawdown_from_high l)[i] = l[i] / (cummax l)[i] - 1 := by
      simp [drawdown_from_high]
    rw [hval]
    have hmpos : 0 < (cummax l)[i] :=
      cummax_pos l hpos _ (List.get_mem (cummax l) i hi3)
    rw [sub_eq_zero]
    exact div_eq_one_iff_eq (ne_of_gt hmpos)

/-- C4 witness: the series `[2, 1, 3]`. -/
theorem drawdown_invariants_witness :
    ([(2 : ℚ), 1, 3] ≠ [] ∧ ∀ x ∈ [(2 : ℚ), 1, 3], 0 < x) ∧
    ((∀ (i j : ℕ) mi mj, i ≤ j → (cummax [(2 : ℚ), 1, 3])[i]? = some mi →
        (cummax [(2 : ℚ), 1, 3])[j]? = some mj → mi ≤ mj) ∧
      (∀ (i : ℕ) d, (drawdown_from_high [(2 : ℚ), 1, 3])[i]? = some d → d ≤ 0) ∧
      (∀ (i : ℕ) d p m, (drawdown_from_high [(2 : ℚ), 1, 3])[i]? = some d →
        [(2 : ℚ), 1, 3][i]? = some p → (cummax [(2 : ℚ), 1, 3])[i]? = some m →
        (d = 0 ↔ p = m))) :=
  ⟨⟨by simp, by norm_num⟩,
    drawdown_invariants [(2 : ℚ), 1, 3] (by simp) (by norm_num)⟩

theorem cumprodSkipna_map_some (ys : List ℚ) :
    ∀ (acc : ℚ) (m : ℕ), m < ys.length →
      (cumprodSkipna acc (ys.map some))[m]? =
        some (some (acc * (ys.take (m + 1)).prod)) := by
  induction ys with
  | nil => intro acc m h; simp at h
  | cons y ys ih =>
    intro acc m h
    cases m with
    | zero => simp [cumprodSkipna]
    | succ k =>
      have hk : k < ys.length := by simpa using h
      simp [cumprodSkipna, ih (acc * y) k hk, mul_assoc]

theorem pct_change_cons_structure (l : List ℚ) (N : ℕ) (hN : l.length = N + 1) :
    (pct_change l).map (Option.map (fun r => 1 + r)) =
      none :: ((List.range N).map
        (fun k => 1 + (l.getD (k + 1) 0 / l.getD k 0 - 1))).map some := by
  simp only [pct_change, hN, List.range_succ_eq_map, List.map_cons, List.map_map]
  refine congrArg (none :: ·) ?_
  apply List.map_congr_left
  intro k _
  simp [Function.comp]

/-- C8 counterexample: for the series `[1, 2]` the `Cumulative_Return` column
is `[missing, 1]` — its row 0 is the missing marker (pandas `NaN` from the
undefined first daily return), not the number `0` the claim states. -/
theorem cumulative_return_row0_counterexample :
    add_cumulative_returns [(1 : ℚ), 2] = [none, some 1] := by
  simp [add_cumulative_returns, pct_change, cumprodSkipna, List.range_succ]
  norm_num [cumprodSkipna]

/-- C8 amended: `Cumulative_Return` is missing at row 0, and at every row
`n ≥ 1` equals the product over rows `1 .. n` of `(1 + Daily_Return)` minus
one. -/
theorem cumulative_return_formula (l : List ℚ) :
    (l ≠ [] → (add_cumulative_returns l)[0]? = some none) ∧
    (∀ n : ℕ, 1 ≤ n → n < l.length →
      (add_cumulative_returns l)[n]? = some (some
        (((List.range n).map
          (fun k => 1 + (l.getD (k + 1) 0 / l.getD k 0 - 1))).prod - 1))) := by
  constructor
  · intro hne
    rcases Nat.exists_eq_add_of_lt (List.length_pos.2 hne) with ⟨N, hN⟩
    rw [add_cumulative_returns, pct_change_cons_structure l N (by omega)]
    simp [cumprodSkipna]
  · intro n h1 hn
    rcases Nat.exists_eq_add_of_lt (Nat.lt_of_lt_of_le h1 (Nat.le_of_lt hn))
      with ⟨N, hN⟩
    have hN' : l.length = N + 1 := by omega
    rcases Nat.exists_eq_add_of_le h1 with ⟨m, hm⟩
    have hmN : m < N := by omega
    rw [add_cumulative_returns, pct_change_cons_structure l N hN']
    have hstep : cumprodSkipna 1 (none :: ((List.range N).map
        (fun k => 1 + (l.getD (k + 1) 0 / l.getD k 0 - 1))).map some) =
      none :: cumprodSkipna 1 (((List.range N).map
        (fun k => 1 + (l.getD (k + 1) 0 / l.getD k 0 - 1))).map some) := rfl
    rw [hstep]
    have hidx : n = m + 1 := by omega
    subst hidx
    rw [List.getElem?_map]
    have hlen : m < ((List.range N).map
        (fun k => 1 + (l.getD (k + 1) 0 / l.getD k 0 - 1))).length := by
      simpa using hmN
    have := cumprodSkipna_map_some ((List.range N).map
      (fun k => 1 + (l.getD (k + 1) 0 / l.getD k 0 - 1))) 1 m hlen
    rw [List.getElem?_cons_succ, this]
    rw [← List.map_take, List.take_range]
    have hmin : min (m + 1) N = m + 1 := by omega
    rw [hmin]
    simp

/-- C8 amended witness: series `[1, 2]`, row `1`. -/
theorem cumulative_return_formula_witness :
    (add_cumulative_returns [(1 : ℚ), 2])[1]? = some (some
      (((List.range 1).map
        (fun k => 1 + ([(1 : ℚ), 2].getD (k + 1) 0 / [(1 : ℚ), 2].getD k 0 - 1))).prod
        - 1)) :=
  (cumulative_return_formula [(1 : ℚ), 2]).2 1 (by decide) (by decide)

/-! ### Lemmas about the projection engine -/

theorem frequency_map_pos (f : String) (ppy : ℕ)
    (h : frequency_map f = some ppy) : 0 < ppy := by
  unfold frequency_map at h
  split_ifs at h
  all_goals simp_all
  all_goals omega

theorem div_pos_iff_le (k ppy : ℕ) (hp : 0 < ppy) : 0 < k / ppy ↔ ppy ≤ k := by
  constructor
  · intro h
    by_contra hc
    rw [Nat.div_eq_of_lt (by omega)] at h
    exact absurd h (by omega)
  · intro h
    exact Nat.div_pos h hp

theorem adjustedContribution_nonneg (c i : ℚ) (flag : Bool) (ppy p : ℕ)
    (hc : 0 ≤ c) (hi : 0 ≤ 1 + i) :
    0 ≤ adjustedContribution c i flag ppy p := by
  unfold adjustedContribution
  split
  · exact mul_nonneg hc (pow_nonneg hi _)
  · exact hc

theorem growthState_snd (sb c i : ℚ) (flag : Bool) (ppy : ℕ) (r : ℚ) (n : ℕ) :
    (growthState sb c i flag ppy r n).2 =
      sb + ((List.range n).map (adjustedContribution c i flag ppy)).sum := by
  induction n with
  | zero => simp [growthState]
  | succ p ih =>
    rw [List.range_succ, List.map_append, List.sum_append]
    simp [growthState, ih]
    ring

theorem growthState_snd_mono (sb c i : ℚ) (flag : Bool) (ppy : ℕ) (r : ℚ)
    (hc : 0 ≤ c) (hi : 0 ≤ 1 + i) (m n : ℕ) (hmn : m ≤ n) :
    (growthState sb c i flag ppy r m).2 ≤ (growthState sb c i flag ppy r n).2 := by
  induction n with
  | zero =>
    have : m = 0 := by omega
    subst this; exact le_refl _
  | succ p ih =>
    rcases Nat.lt_or_ge m (p + 1) with hlt | hge
    · have step : (growthState sb c i flag ppy r p).2 ≤
          (growthState sb c i flag ppy r (p + 1)).2 := by
        show (growthState sb c i flag ppy r p).2 ≤
          (growthState sb c i flag ppy r p).2 + adjustedContribution c i flag ppy p
        have := adjustedContribution_nonneg c i flag ppy p hc hi
        linarith
      exact le_trans (ih (by omega)) step
    · have : m = p + 1 := by omega
      subst this; exact le_refl _

theorem getLastD_map_range {α : Type} (f : ℕ → α) (n : ℕ) (d : α) :
    ((List.range (n + 1)).map f).getLastD d = f n := by
  rw [List.range_succ, List.map_append]
  exact List.getLastD_concat d (f n) _

theorem getElem?_map_range {α : Type} (g : ℕ → α) (N n : ℕ) (a : α)
    (h : ((List.range N).map g)[n]? = some a) : n < N ∧ a = g n := by
  rcases List.getElem?_eq_some_iff.1 h with ⟨hlt, he⟩
  have hn : n < N := by simpa using hlt
  exact ⟨hn, by simpa using he.symm⟩

theorem calculate_cumulative_growth_eq (sb pc : ℚ) (f : String) (y : ℕ)
    (ar ai : ℚ) (flag : Bool) (ppy : ℕ) (hf : frequency_map f = some ppy) :
    calculate_cumulative_growth sb pc f y ar ai flag = Except.ok
      { years := (List.range (y * ppy + 1)).map
          (fun p => (p : ℚ) / (ppy : ℚ))
        balance := ((List.range (y * ppy + 1)).map
          (growthState sb pc ai flag ppy (ar / (ppy : ℚ)))).map Prod.fst
        contributions := ((List.range (y * ppy + 1)).map
          (growthState sb pc ai flag ppy (ar / (ppy : ℚ)))).map Prod.snd
        interest := ((List.range (y * ppy + 1)).map
          (growthState sb pc ai flag ppy (ar / (ppy : ℚ)))).map
            (fun s => s.1 - s.2)
        final_balance := (((List.range (y * ppy + 1)).map
          (growthState sb pc ai flag ppy (ar / (ppy : ℚ)))).map
            Prod.fst).getLastD 0
        total_contributed := (((List.range (y * ppy + 1)).map
          (growthState sb pc ai flag ppy (ar / (ppy : ℚ)))).map
            Prod.snd).getLastD 0
        total_interest := (((List.range (y * ppy + 1)).map
          (growthState sb pc ai flag ppy (ar / (ppy : ℚ)))).map
            Prod.fst).getLastD 0 -
          (((List.range (y * ppy + 1)).map
            (growthState sb pc ai flag ppy (ar / (ppy : ℚ)))).map
              Prod.snd).getLastD 0 } := by
  rw [calculate_cumulative_growth, hf]

/-- C3 (amended).  In every timeline produced by
`calculate_cumulative_growth`, `balance[0]` is the starting balance; for every
period `n ≥ 1`, `balance[n] = balance[n-1] * (1 + annual_return /
periods_per_year) + contribution(n)`, where `contribution(n)` is the base
contribution scaled by `(1 + annual_inflation) ^ (whole years elapsed at
period n-1)` once inflation adjustment is on and at least one full year has
elapsed, and the base contribution otherwise; and when the base contribution
is non-negative and `1 + annual_inflation ≥ 0`, the recorded
cumulative-contributions sequence is non-decreasing. -/
theorem growth_timeline_recurrence (sb pc : ℚ) (f : String) (y : ℕ)
    (ar ai : ℚ) (flag : Bool) (ppy : ℕ) (res : GrowthResult)
    (hf : frequency_map f = some ppy)
    (hres : calculate_cumulative_growth sb pc f y ar ai flag = Except.ok res) :
    res.balance[0]? = some sb ∧
    (∀ (n : ℕ) (bp bc : ℚ), 1 ≤ n → res.balance[n - 1]? = some bp →
      res.balance[n]? = some bc →
      bc = bp * (1 + ar / (ppy : ℚ)) +
        (if flag ∧ ppy ≤ n - 1 then pc * (1 + ai) ^ ((n - 1) / ppy) else pc)) ∧
    (0 ≤ pc → 0 ≤ 1 + ai →
      ∀ (m n : ℕ) (cm cn : ℚ), m ≤ n → res.contributions[m]? = some cm →
        res.contributions[n]? = some cn → cm ≤ cn) := by
  rw [calculate_cumulative_growth_eq sb pc f y ar ai flag ppy hf] at hres
  have hres' := Except.ok.inj hres
  subst hres'
  have hppy := frequency_map_pos f ppy hf
  refine ⟨?_, ?_, ?_⟩
  · simp [List.getElem?_map, List.getElem?_range (Nat.succ_pos (y * ppy)),
      growthState]
  · intro n bp bc h1 hbp hbc
    obtain ⟨k, rfl⟩ : ∃ k, n = k + 1 := ⟨n - 1, by omega⟩
    simp only [Nat.add_sub_cancel] at hbp ⊢
    simp only [List.map_map] at hbp hbc
    obtain ⟨hltk, hbp'⟩ := getElem?_map_range _ _ _ _ hbp
    obtain ⟨hltk1, hbc'⟩ := getElem?_map_range _ _ _ _ hbc
    subst hbp' hbc'
    simp only [Function.comp_apply]
    show (growthState sb pc ai flag ppy (ar / (ppy : ℚ)) k).1 *
      (1 + ar / (ppy : ℚ)) + adjustedContribution pc ai flag ppy k = _
    congr 1
    unfold adjustedContribution
    exact if_congr (and_congr_right fun _ => div_pos_iff_le k ppy hppy) rfl rfl
  · intro hc hi m n cm cn hmn hcm hcn
    simp only [List.map_map] at hcm hcn
    obtain ⟨hltm, hcm'⟩ := getElem?_map_range _ _ _ _ hcm
    obtain ⟨hltn, hcn'⟩ := getElem?_map_range _ _ _ _ hcn
    subst hcm' hcn'
    exact growthState_snd_mono sb pc ai flag ppy (ar / (ppy : ℚ)) hc hi m n hmn

/-- C3 counterexample: with inflation `-2` (so `1 + inflation < 0`), a
non-negative base contribution of `1`, quarterly frequency and a two-year
horizon, the recorded cumulative-contributions sequence is
`[0, 1, 2, 3, 4, 3, 2, 1, 0]`, which decreases after one year — refuting the
claim that contribution `≥ 0` alone makes it non-decreasing. -/
theorem growth_contributions_decreasing_counterexample :
    (calculate_cumulative_growth 0 1 "quarterly" 2 0 (-2) true).toOption.map
      GrowthResult.contributions = some [0, 1, 2, 3, 4, 3, 2, 1, 0] := by
  rw [calculate_cumulative_growth_eq 0 1 "quarterly" 2 0 (-2) true 4 rfl]
  simp [List.range_succ, growthState, adjustedContribution]
  norm_num
  exact ⟨_, rfl, rfl⟩

/-- C3 witness: the degenerate zero-year quarterly run starting at balance 1
with contribution 1. -/
theorem growth_timeline_recurrence_witness :
    (frequency_map "quarterly" = some 4 ∧
      calculate_cumulative_growth 1 1 "quarterly" 0 0 0 false =
        Except.ok ⟨[0], [1], [1], [0], 1, 1, 0⟩) ∧
    (GrowthResult.balance ⟨[0], [1], [1], [0], 1, 1, 0⟩)[0]? = some 1 ∧
    (∀ (n : ℕ) (bp bc : ℚ), 1 ≤ n →
      (GrowthResult.balance ⟨[0], [1], [1], [0], 1, 1, 0⟩)[n - 1]? = some bp →
      (GrowthResult.balance ⟨[0], [1], [1], [0], 1, 1, 0⟩)[n]? = some bc →
      bc = bp * (1 + 0 / ((4 : ℕ) : ℚ)) +
        (if False ∧ 4 ≤ n - 1 then 1 * (1 + 0) ^ ((n - 1) / 4) else 1)) ∧
    (0 ≤ (1 : ℚ) → 0 ≤ 1 + (0 : ℚ) →
      ∀ (m n : ℕ) (cm cn : ℚ), m ≤ n →
        (GrowthResult.contributions ⟨[0], [1], [1], [0], 1, 1, 0⟩)[m]? = some cm →
        (GrowthResult.contributions ⟨[0], [1], [1], [0], 1, 1, 0⟩)[n]? = some cn →
        cm ≤ cn) := by
  have heq : calculate_cumulative_growth 1 1 "quarterly" 0 0 0 false =
      Except.ok ⟨[0], [1], [1], [0], 1, 1, 0⟩ := by
    rw [calculate_cumulative_growth_eq 1 1 "quarterly" 0 0 0 false 4 rfl]
    simp [List.range_succ, growthState]
  have h := growth_timeline_recurrence 1 1 "quarterly" 0 0 0 false 4
    ⟨[0], [1], [1], [0], 1, 1, 0⟩ rfl heq
  exact ⟨⟨rfl, heq⟩, h.1, by simpa using h.2.1, by simpa using h.2.2⟩

/-- C10.  In every result of `calculate_cumulative_growth`: cumulative
contributions start at the starting balance, every snapshot's interest equals
balance minus cumulative contributions (so interest at period 0 is 0), and
`total_contributed` is the starting balance plus the sum of all per-period
contributions — i.e. it includes the starting balance. -/
theorem growth_contributions_accounting (sb pc : ℚ) (f : String) (y : ℕ)
    (ar ai : ℚ) (flag : Bool) (ppy : ℕ) (res : GrowthResult)
    (hf : frequency_map f = some ppy)
    (hres : calculate_cumulative_growth sb pc f y ar ai flag = Except.ok res) :
    res.contributions[0]? = some sb ∧
    (∀ (n : ℕ) (b c intr : ℚ), res.balance[n]? = some b →
      res.contributions[n]? = some c → res.interest[n]? = some intr →
      intr = b - c) ∧
    res.interest[0]? = some 0 ∧
    res.total_contributed = sb + ((List.range (y * ppy)).map
      (fun p => if flag ∧ ppy ≤ p then pc * (1 + ai) ^ (p / ppy) else pc)).sum := by
  rw [calculate_cumulative_growth_eq sb pc f y ar ai flag ppy hf] at hres
  have hres' := Except.ok.inj hres
  subst hres'
  have hppy := frequency_map_pos f ppy hf
  refine ⟨?_, ?_, ?_, ?_⟩
  · simp [List.getElem?_map, List.getElem?_range (Nat.succ_pos (y * ppy)),
      growthState]
  · intro n b c intr hb hc hi
    simp only [List.map_map] at hb hc hi
    obtain ⟨hltb, hb'⟩ := getElem?_map_range _ _ _ _ hb
    obtain ⟨hltc, hc'⟩ := getElem?_map_range _ _ _ _ hc
    obtain ⟨hlti, hi'⟩ := getElem?_map_range _ _ _ _ hi
    subst hb' hc' hi'
    rfl
  · simp [List.getElem?_map, List.getElem?_range (Nat.succ_pos (y * ppy)),
      growthState]
  · show (((List.range (y * ppy + 1)).map
        (growthState sb pc ai flag ppy (ar / (ppy : ℚ)))).map
          Prod.snd).getLastD 0 = _
    rw [List.map_map, getLastD_map_range, Function.comp_apply, growthState_snd]
    congr 1
    refine congrArg List.sum ?_
    apply List.map_congr_left
    intro p _
    unfold adjustedContribution
    exact if_congr (and_congr_right fun _ => div_pos_iff_le p ppy hppy) rfl rfl

/-- C10 witness: the degenerate zero-year quarterly run starting at balance 1
with contribution 1 (interest column is `[0]`, `total_contributed = 1`
includes the starting balance). -/
theorem growth_contributions_accounting_witness :
    (GrowthResult.contributions ⟨[0], [1], [1], [0], 1, 1, 0⟩)[0]? = some 1 ∧
    (∀ (n : ℕ) (b c intr : ℚ),
      (GrowthResult.balance ⟨[0], [1], [1], [0], 1, 1, 0⟩)[n]? = some b →
      (GrowthResult.contributions ⟨[0], [1], [1], [0], 1, 1, 0⟩)[n]? = some c →
      (GrowthResult.interest ⟨[0], [1], [1], [0], 1, 1, 0⟩)[n]? = some intr →
      intr = b - c) ∧
    (GrowthResult.interest ⟨[0], [1], [1], [0], 1, 1, 0⟩)[0]? = some 0 ∧
    GrowthResult.total_contributed ⟨[0], [1], [1], [0], 1, 1, 0⟩ =
      1 + ((List.range (0 * 4)).map
        (fun p => if False ∧ 4 ≤ p then 1 * (1 + (0 : ℚ)) ^ (p / 4) else 1)).sum := by
  have heq : calculate_cumulative_growth 1 1 "quarterly" 0 0 0 false =
      Except.ok ⟨[0], [1], [1], [0], 1, 1, 0⟩ := by
    rw [calculate_cumulative_growth_eq 1 1 "quarterly" 0 0 0 false 4 rfl]
    simp [List.range_succ, growthState]
  have h := growth_contributions_accounting 1 1 "quarterly" 0 0 0 false 4
    ⟨[0], [1], [1], [0], 1, 1, 0⟩ rfl heq
  exact ⟨h.1, h.2.1, h.2.2.1, by simpa using h.2.2.2⟩

/-- C2.  Each engine rejects invalid arguments immediately with an
invalid-argument error and no partial output: an unsupported contribution
frequency in `calculate_cumulative_growth`, a retirement age not exceeding the
current age in `calculate_retirement_goal`, and a monthly payment not
exceeding the first month's interest in `calculate_debt_payoff`. -/
theorem invalid_argument_rejection :
    (∀ (sb pc : ℚ) (f : String) (y : ℕ) (ar ai : ℚ) (flag : Bool),
      f ∉ (["daily", "weekly", "monthly", "quarterly"] : List String) →
      calculate_cumulative_growth sb pc f y ar ai flag =
        Except.error "Invalid frequency") ∧
    (∀ (t : ℚ) (ca ra : ℤ) (cs ar : ℚ) (f : String) (ai : ℚ), ra ≤ ca →
      calculate_retirement_goal t ca ra cs ar f ai =
        Except.error "Retirement age must be greater than current age") ∧
    (∀ (p r mp : ℚ) (fuel : ℕ), mp ≤ p * (r / 12) →
      calculate_debt_payoff p r mp fuel =
        Except.error "Monthly payment too low - debt will never be paid off") := by
  refine ⟨?_, ?_, ?_⟩
  · intro sb pc f y ar ai flag h
    simp only [List.mem_cons, List.not_mem_nil, or_false, not_or] at h
    obtain ⟨h1, h2, h3, h4⟩ := h
    rw [calculate_cumulative_growth,
      show frequency_map f = none by simp [frequency_map, h1, h2, h3, h4]]
  · intro t ca ra cs ar f ai h
    rw [calculate_retirement_goal, if_pos (by omega : ra - ca ≤ 0)]
  · intro p r mp fuel h
    rw [calculate_debt_payoff, if_pos h]

/-- C2 witness: `"yearly"` frequency, equal ages, and the spec's concrete
under-payment case (principal 10000, rate 12%, payment 99 ≤ interest 100). -/
theorem invalid_argument_rejection_witness :
    calculate_cumulative_growth 1 1 "yearly" 1 0 0 false =
      Except.error "Invalid frequency" ∧
    calculate_retirement_goal 1000 40 40 0 (7 / 100) "monthly" 0 =
      Except.error "Retirement age must be greater than current age" ∧
    calculate_debt_payoff 10000 (12 / 100) 99 5 =
      Except.error "Monthly payment too low - debt will never be paid off" :=
  ⟨invalid_argument_rejection.1 1 1 "yearly" 1 0 0 false (by simp),
    invalid_argument_rejection.2.1 1000 40 40 0 (7 / 100) "monthly" 0 le_rfl,
    invalid_argument_rejection.2.2 10000 (12 / 100) 99 5 (by norm_num)⟩

/-- C6.  `calculate_retirement_goal` returns a zero required contribution when
the financing gap `target * (1+inflation)^years - savings * (1+return)^years`
is `≤ 0`; otherwise `gap / n` when the per-period rate is zero and
`gap * r / ((1+r)^n - 1)` with `n = years * periods_per_year` otherwise. -/
theorem retirement_goal_formula (t : ℚ) (ca ra : ℤ) (cs ar : ℚ) (f : String)
    (ai : ℚ) (ppy : ℕ) (hage : ca < ra) (hf : frequency_map f = some ppy) :
    ∃ res, calculate_retirement_goal t ca ra cs ar f ai = Except.ok res ∧
      res.required_contribution =
        (if t * (1 + ai) ^ (ra - ca).toNat - cs * (1 + ar) ^ (ra - ca).toNat ≤ 0
         then 0
         else if ar / (ppy : ℚ) = 0 then
           (t * (1 + ai) ^ (ra - ca).toNat - cs * (1 + ar) ^ (ra - ca).toNat) /
             (((ra - ca).toNat * ppy : ℕ) : ℚ)
         else
           (t * (1 + ai) ^ (ra - ca).toNat - cs * (1 + ar) ^ (ra - ca).toNat) *
             (ar / (ppy : ℚ)) /
             ((1 + ar / (ppy : ℚ)) ^ ((ra - ca).toNat * ppy) - 1)) := by
  rw [calculate_retirement_goal, if_neg (by omega : ¬ra - ca ≤ 0), hf]
  exact ⟨_, rfl, rfl⟩

/-- C6 witness: target 0 with savings 100 over one year (gap `≤ 0`, so the
required contribution is the first branch, 0). -/
theorem retirement_goal_formula_witness :
    ∃ res, calculate_retirement_goal 0 30 31 100 0 "monthly" 0 =
        Except.ok res ∧
      res.required_contribution =
        (if (0 : ℚ) * (1 + 0) ^ ((31 : ℤ) - 30).toNat -
            100 * (1 + 0) ^ ((31 : ℤ) - 30).toNat ≤ 0
         then 0
         else if (0 : ℚ) / ((12 : ℕ) : ℚ) = 0 then
           ((0 : ℚ) * (1 + 0) ^ ((31 : ℤ) - 30).toNat -
             100 * (1 + 0) ^ ((31 : ℤ) - 30).toNat) /
             (((((31 : ℤ) - 30).toNat * 12 : ℕ)) : ℚ)
         else
           ((0 : ℚ) * (1 + 0) ^ ((31 : ℤ) - 30).toNat -
             100 * (1 + 0) ^ ((31 : ℤ) - 30).toNat) *
             ((0 : ℚ) / ((12 : ℕ) : ℚ)) /
             ((1 + (0 : ℚ) / ((12 : ℕ) : ℚ)) ^ (((31 : ℤ) - 30).toNat * 12) - 1)) :=
  retirement_goal_formula 0 30 31 100 0 "monthly" 0 12 (by norm_num) rfl

/-- C7 counterexample: called with `years = 0`, the effective-return
computation reports the ordinary number `0` (the `else 0` branch of the
source) rather than raising or flagging an undefined result. -/
theorem effective_return_years_zero_counterexample :
    effective_return 2 1 0 = Except.ok 0 := by
  simp [effective_return]

/-- C7 amended.  The effective annualized return is
`(final / starting) ^ (1 / years) - 1` when `years > 0` and the starting
balance is non-zero; when the starting balance is zero (and `years > 0`) the
division raises `ZeroDivisionError`; but when `years = 0` the source reports
the ordinary number `0` instead of an undefined result. -/
theorem effective_return_guards (fb sb : ℚ) (years : ℕ) :
    (0 < years → sb ≠ 0 → effective_return fb sb years = Except.ok
      (Real.rpow ((fb : ℝ) / (sb : ℝ)) (1 / (years : ℝ)) - 1)) ∧
    (years = 0 → effective_return fb sb years = Except.ok 0) ∧
    (0 < years → sb = 0 →
      effective_return fb sb years = Except.error "ZeroDivisionError") := by
  refine ⟨?_, ?_, ?_⟩
  · intro h1 h2
    rw [effective_return, if_pos h1, if_neg h2]
  · intro h1
    subst h1
    rw [effective_return, if_neg (by omega)]
  · intro h1 h2
    rw [effective_return, if_pos h1, if_pos h2]

/-- C7 amended witness: the three branches at `(2, 1, 1)`, `(2, 1, 0)` and
`(2, 0, 1)`. -/
theorem effective_return_guards_witness :
    effective_return 2 1 1 = Except.ok
      (Real.rpow (((2 : ℚ) : ℝ) / ((1 : ℚ) : ℝ)) (1 / ((1 : ℕ) : ℝ)) - 1) ∧
    effective_return 2 1 0 = Except.ok 0 ∧
    effective_return 2 0 1 = Except.error "ZeroDivisionError" :=
  ⟨(effective_return_guards 2 1 1).1 (by norm_num) (by norm_num),
    (effective_return_guards 2 1 0).2.1 rfl,
    (effective_return_guards 2 0 1).2.2 (by norm_num) rfl⟩

/-- Invariant of the debt-payoff loop.  With a non-negative monthly rate and a
payment exceeding the interest on the cap `P ≥ b`, the loop finishes (returns
`some`) once the fuel covers `b / (payment - P * rate)` steps; the final
balance is at most one cent, months only move forward, the month column
appended is consecutive, and the last snapshot (if the loop ran) records the
final month and final clamped balance. -/
theorem debtLoop_spec (rate payment P : ℚ) (hr : 0 ≤ rate)
    (hp : P * rate < payment) :
    ∀ (fuel : ℕ) (b : ℚ) (m : ℕ) (acc : List (ℕ × ℚ × ℚ × ℚ)),
      0 ≤ b → b ≤ P →
      b ≤ 1 / 100 + (fuel : ℚ) * (payment - P * rate) →
      ∃ b' m' sched,
        debtLoop rate payment fuel b m acc = some (b', m', sched) ∧
        b' ≤ 1 / 100 ∧ m ≤ m' ∧
        sched.map (fun e => e.1) =
          acc.map (fun e => e.1) ++ List.range' (m + 1) (m' - m) ∧
        (sched = acc ∧ b' = b ∧ m' = m ∨
          ∃ i p, sched.getLast? = some (m', max 0 b', i, p)) := by
  intro fuel
  induction fuel with
  | zero =>
    intro b m acc hb0 hbP hfuel
    have hble : b ≤ 1 / 100 := by simpa using hfuel
    refine ⟨b, m, acc, ?_, hble, le_refl m, by simp, Or.inl ⟨rfl, rfl, rfl⟩⟩
    rw [debtLoop, if_neg (not_lt.2 hble)]
  | succ n ih =>
    intro b m acc hb0 hbP hfuel
    by_cases hgt : 1 / 100 < b
    · have hint : b * rate ≤ P * rate := mul_le_mul_of_nonneg_right hbP hr
      have hδ : 0 < payment - P * rate := sub_pos.2 hp
      have hpay : 0 < payment - b * rate := by linarith
      have hb1_0 : 0 ≤ b - min (payment - b * rate) b := by
        rcases le_total (payment - b * rate) b with hle | hle
        · rw [min_eq_left hle]; linarith
        · rw [min_eq_right hle]; linarith
      have hb1_P : b - min (payment - b * rate) b ≤ P := by
        have : 0 ≤ min (payment - b * rate) b := le_min (le_of_lt hpay) (by linarith)
        linarith
      have hb1_fuel : b - min (payment - b * rate) b ≤
          1 / 100 + (n : ℚ) * (payment - P * rate) := by
        push_cast at hfuel
        rcases le_total (payment - b * rate) b with hle | hle
        · rw [min_eq_left hle]
          have : payment - P * rate ≤ payment - b * rate := by linarith
          nlinarith
        · rw [min_eq_right hle]
          have : (0 : ℚ) ≤ (n : ℚ) * (payment - P * rate) := by positivity
          linarith
      obtain ⟨b', m', sched, heq, hb', hmm', hmonths, hlast⟩ :=
        ih (b - min (payment - b * rate) b) (m + 1)
          (acc ++ [(m + 1, max 0 (b - min (payment - b * rate) b),
            b * rate, min (payment - b * rate) b)]) hb1_0 hb1_P hb1_fuel
      refine ⟨b', m', sched, ?_, hb', by omega, ?_, ?_⟩
      · rw [debtLoop, if_pos hgt]
        exact heq
      · rw [hmonths, List.map_append]
        have hsplit : m' - m = (m' - (m + 1)) + 1 := by omega
        rw [hsplit, List.range'_succ]
        simp
      · rcases hlast with ⟨hsched, hb'b, hm'm⟩ | ⟨i', p', hl⟩
        · right
          refine ⟨b * rate, min (payment - b * rate) b, ?_⟩
          rw [hsched, List.getLast?_concat, hb'b, hm'm]
        · exact Or.inr ⟨i', p', hl⟩
    · have hble : b ≤ 1 / 100 := not_lt.1 hgt
      refine ⟨b, m, acc, ?_, hble, le_refl m, by simp, Or.inl ⟨rfl, rfl, rfl⟩⟩
      rw [debtLoop, if_neg hgt]

theorem calculate_debt_payoff_eq (principal rate payment : ℚ) (fuel : ℕ)
    (h : ¬payment ≤ principal * (rate / 12)) (b' : ℚ) (m' : ℕ)
    (sched : List (ℕ × ℚ × ℚ × ℚ))
    (heq : debtLoop (rate / 12) payment fuel principal 0 [] =
      some (b', m', sched)) :
    calculate_debt_payoff principal rate payment fuel = Except.ok (some
      { months := sched.map (fun e => e.1)
        remaining_balance := sched.map (fun e => e.2.1)
        interest_payments := sched.map (fun e => e.2.2.1)
        principal_payments := sched.map (fun e => e.2.2.2)
        months_to_payoff := (sched.map (fun e => e.1)).length
        years_to_payoff := ((sched.map (fun e => e.1)).length : ℚ) / 12
        total_interest_paid := (sched.map (fun e => e.2.2.1)).sum
        total_amount_paid := principal + (sched.map (fun e => e.2.2.1)).sum }) := by
  simp only [calculate_debt_payoff, if_neg h, heq]

/-- C1.  For every `calculate_debt_payoff` call with positive principal,
non-negative rate, and a payment exceeding the first month's interest
`principal * (rate / 12)`, the month-by-month loop terminates after finitely
many months (some fuel suffices), the final recorded remaining balance is at
most the one-cent tolerance, and exactly one snapshot is recorded per month
(consecutive month numbers `1 .. months_to_payoff`, with every schedule column
of that length). -/
theorem debt_payoff_terminates (principal rate payment : ℚ)
    (h1 : 0 < principal) (h2 : 0 ≤ rate)
    (h3 : principal * (rate / 12) < payment) :
    ∃ (fuel : ℕ) (res : DebtResult),
      calculate_debt_payoff principal rate payment fuel = Except.ok (some res) ∧
      (∀ b ∈ res.remaining_balance.getLast?, b ≤ 1 / 100) ∧
      res.months = List.range' 1 res.months_to_payoff ∧
      res.remaining_balance.length = res.months_to_payoff ∧
      res.interest_payments.length = res.months_to_payoff ∧
      res.principal_payments.length = res.months_to_payoff := by
  have hr : 0 ≤ rate / 12 := div_nonneg h2 (by norm_num)
  have hδ : 0 < payment - principal * (rate / 12) := sub_pos.2 h3
  have hbound : principal ≤ 1 / 100 +
      ((Nat.ceil (principal / (payment - principal * (rate / 12))) : ℕ) : ℚ) *
        (payment - principal * (rate / 12)) := by
    have h4 : principal / (payment - principal * (rate / 12)) ≤
        ((Nat.ceil (principal / (payment - principal * (rate / 12))) : ℕ) : ℚ) :=
      Nat.le_ceil _
    rw [div_le_iff₀ hδ] at h4
    linarith
  obtain ⟨b', m', sched, heq, hb', hmm', hmonths, hlast⟩ :=
    debtLoop_spec (rate / 12) payment principal hr h3
      (Nat.ceil (principal / (payment - principal * (rate / 12))))
      principal 0 [] (le_of_lt h1) le_rfl hbound
  simp only [List.map_nil, List.nil_append, Nat.sub_zero] at hmonths
  refine ⟨Nat.ceil (principal / (payment - principal * (rate / 12))), _,
    calculate_debt_payoff_eq principal rate payment _ (not_le.2 h3) b' m'
      sched heq, ?_, ?_, by simp, by simp, by simp⟩
  · intro b hb
    simp only [List.getLast?_map] at hb
    rcases hlast with ⟨hsched, hb'b, _⟩ | ⟨i', p', hl⟩
    · subst hsched
      simp at hb
    · rw [hl] at hb
      simp at hb
      subst hb
      exact max_le (by norm_num) hb'
  · show sched.map (fun e => e.1) = List.range' 1 (sched.map (fun e => e.1)).length
    rw [hmonths, List.length_range']

/-- C1 witness: the spec's concrete case — principal 1200, zero interest,
payment 100. -/
theorem debt_payoff_terminates_witness :
    0 < (1200 : ℚ) ∧ 0 ≤ (0 : ℚ) ∧ (1200 : ℚ) * (0 / 12) < 100 ∧
    ∃ (fuel : ℕ) (res : DebtResult),
      calculate_debt_payoff 1200 0 100 fuel = Except.ok (some res) ∧
      (∀ b ∈ res.remaining_balance.getLast?, b ≤ 1 / 100) ∧
      res.months = List.range' 1 res.months_to_payoff ∧
      res.remaining_balance.length = res.months_to_payoff ∧
      res.interest_payments.length = res.months_to_payoff ∧
      res.principal_payments.length = res.months_to_payoff :=
  ⟨by norm_num, le_rfl, by norm_num,
    debt_payoff_terminates 1200 0 100 (by norm_num) le_rfl (by norm_num)⟩

end InvestingDashboard
